import Mathlib

/-!
Verification of the quic transport connection handle
(`rs/p2p/quic_transport/src/connection_handle.rs`).

The Rust code is shallowly embedded: the error-mapper `From` impls become
total Lean functions, the `rpc`/`push` orchestration becomes explicit
state passing over an environment that fixes the outcome of each fallible
stage (stream open, request write, write-side finish, response read), and
prometheus counter vectors become finite counter maps threaded through the
call.  Each call additionally returns the trace of stages it attempted, so
that ordering, early return and absent-retry properties are statable.
-/

namespace QuicTransport

/-- Node identity (`ic_types::NodeId`); an abstract stable identifier. -/
abbrev NodeId := Nat

/-- The `std::io::ErrorKind` values this crate constructs, plus the kinds
the framing codec produces. -/
inductive IoErrorKind where
  | ConnectionReset
  | ConnectionRefused
  | Unsupported
  | TimedOut
  | InvalidData
  | UnexpectedEof
  deriving DecidableEq, Repr

/-- A `std::io::Error`: a kind plus, when built with `io::Error::new`, a
message; `io::Error::from(kind)` carries no message. -/
structure IoError where
  kind : IoErrorKind
  msg : Option String
  deriving DecidableEq, Repr

/-- `quinn::ConnectionError` (upstream enumeration used by the mapper).
The payloads of `TransportError`/`ConnectionClosed`/`ApplicationClosed`
are kept as their rendered string (the code only ever calls
`.to_string()` on them). -/
inductive ConnectionError where
  | VersionMismatch
  | TransportErr (e : String)
  | Reset
  | TimedOut
  | ConnectionClosed (e : String)
  | ApplicationClosed (e : String)
  | LocallyClosed
  deriving DecidableEq, Repr

/-- The `Display` rendering of a `quinn::ConnectionError` (`.to_string()`),
used when a `ConnectionLost` cause is rendered into a `Disconnected`
message.  The exact strings live in the upstream quinn crate; no theorem
below depends on them beyond their existence. -/
def ConnectionError.render : ConnectionError → String
  | .VersionMismatch => "peer doesn't implement any supported version"
  | .TransportErr e => e
  | .Reset => "reset by peer"
  | .TimedOut => "timed out"
  | .ConnectionClosed e => e
  | .ApplicationClosed e => e
  | .LocallyClosed => "closed"

/-- `quinn::WriteError`.  `Stopped` carries the peer's application error
code (a VarInt). -/
inductive WriteError where
  | Stopped (code : Nat)
  | ConnectionLost (cause : ConnectionError)
  | UnknownStream
  | ZeroRttRejected
  deriving DecidableEq, Repr

/-- `TransportError` of the quic transport crate: two variants, `Io` and
`Disconnected`. -/
inductive TransportError where
  | Io (error : IoError)
  | Disconnected (connection_error : Option String)
  deriving DecidableEq, Repr

/-- Whether a `TransportError` is the `Disconnected` variant. -/
def TransportError.isDisconnected : TransportError → Bool
  | .Io _ => false
  | .Disconnected _ => true

/-- Whether a `TransportError` is `Disconnected` with a present cause
description (not `Io`, and not `Disconnected None`). -/
def TransportError.disconnectedCausePresent : TransportError → Bool
  | .Io _ => true
  | .Disconnected (some _) => true
  | .Disconnected none => false

/-- `impl From<quinn::WriteError> for TransportError`
(connection_handle.rs lines 22-39). -/
def writeErrorToTransportError : WriteError → TransportError
  | .Stopped e => .Io ⟨.ConnectionReset, some (toString e)⟩
  | .ConnectionLost cause => .Disconnected (some cause.render)
  | .UnknownStream => .Io ⟨.ConnectionReset, some "unknown quic stream"⟩
  | .ZeroRttRejected => .Io ⟨.ConnectionRefused, some "zero rtt rejected"⟩

/-- `impl From<quinn::ConnectionError> for TransportError`
(connection_handle.rs lines 41-67). -/
def connectionErrorToTransportError : ConnectionError → TransportError
  | .VersionMismatch => .Io ⟨.Unsupported, some "Quic version mismatch"⟩
  | .TransportErr e => .Io ⟨.Unsupported, some e⟩
  | .Reset => .Io ⟨.ConnectionReset, none⟩
  | .TimedOut => .Io ⟨.TimedOut, none⟩
  | .ConnectionClosed e => .Disconnected (some e)
  | .ApplicationClosed e => .Disconnected (some e)
  | .LocallyClosed => .Disconnected (some "Connection closed locally")

/-- Spec-side table: the `quinn::WriteError` causes the spec classifies as
connection-gone (mapping to `Disconnected`).  Written from the spec's
words, to be compared with the mapper embedded from the source. -/
def specGoneWrite : WriteError → Bool
  | .ConnectionLost _ => true
  | _ => false

/-- Spec-side table: the `quinn::ConnectionError` causes the spec
classifies as connection-gone (mapping to `Disconnected`).  Written from
the spec's words, to be compared with the mapper embedded from the
source. -/
def specGoneConn : ConnectionError → Bool
  | .ConnectionClosed _ => true
  | .ApplicationClosed _ => true
  | .LocallyClosed => true
  | _ => false

/-- The closed category tags the spec allows on an `Io` error. -/
def specIoKind : IoErrorKind → Bool
  | .ConnectionReset => true
  | .ConnectionRefused => true
  | .Unsupported => true
  | .TimedOut => true
  | _ => false

/-- The `Io` category tag of a mapped error, when it is an `Io` error. -/
def TransportError.ioKind : TransportError → Option IoErrorKind
  | .Io e => some e.kind
  | .Disconnected _ => none

/-! ## The connection handle -/

/-- The `NodeId`-typed slot of an `http::Extensions` typed map: the only
extension this crate reads or writes.  `insert(self.peer_id)` overwrites
this slot. -/
structure Extensions where
  peer_id : Option NodeId
  deriving DecidableEq, Repr

/-- `Extensions::insert::<NodeId>`: store the node id, replacing any
previous value of that type. -/
def Extensions.insertNodeId (e : Extensions) (n : NodeId) : Extensions :=
  { e with peer_id := some n }

/-- An `http::Request<Bytes>`: opaque body bytes plus the extensions
map. -/
structure Request where
  body : List Nat
  extensions : Extensions
  deriving DecidableEq, Repr

/-- An `http::Response<Bytes>`: opaque body bytes plus the extensions
map. -/
structure Response where
  body : List Nat
  extensions : Extensions
  deriving DecidableEq, Repr

/-- Metric label constants from `crate::metrics` (the metrics module is
not part of the sampled source; the label values are the spec's call-type
and stage names, and no theorem depends on the concrete strings). -/
def REQUEST_TYPE_RPC : String := "rpc"

def REQUEST_TYPE_PUSH : String := "push"

def ERROR_TYPE_OPEN : String := "open"

def ERROR_TYPE_WRITE : String := "write"

def ERROR_TYPE_FINISH : String := "finish"

def ERROR_TYPE_READ : String := "read"

/-- The counter values of `QuicTransportMetrics` seen by the connection
handle: `connection_handle_requests_total` keyed by request type, and
`connection_handle_errors_total` keyed by request type and stage. -/
structure MetricsState where
  requests_total : String → Nat
  errors_total : String → String → Nat

/-- `metrics.connection_handle_requests_total.with_label_values(&[ty]).inc()`:
bump the child counter for label `ty` by one. -/
def MetricsState.incRequestsTotal (m : MetricsState) (ty : String) : MetricsState :=
  { m with
    requests_total := fun l =>
      if l = ty then m.requests_total l + 1 else m.requests_total l }

/-- `metrics.connection_handle_errors_total.with_label_values(&[ty, stage])`
as written in the error paths of `rpc` and `push`: the source obtains the
labeled child counter but drops it without calling `.inc()`, so every
counter value is left unchanged. -/
def MetricsState.touchErrorsTotal (m : MetricsState) (ty stage : String) : MetricsState :=
  m

/-- A stage of a call, in the order the code runs them. -/
inductive Stage where
  | openS
  | writeS
  | finishS
  | readS
  deriving DecidableEq, Repr

/-- A recorded stage attempt.  The write event carries the request value
handed to `write_request`, i.e. the bytes-and-metadata actually
transmitted. -/
inductive Event where
  | openEv
  | writeEv (req : Request)
  | finishEv
  | readEv
  deriving DecidableEq, Repr

/-- The stage of an event. -/
def Event.stageOf : Event → Stage
  | .openEv => .openS
  | .writeEv _ => .writeS
  | .finishEv => .finishS
  | .readEv => .readS

/-- The outcome each fallible awaited operation of `rpc` would have on
this call: `connection.open_bi()` fails with a `quinn::ConnectionError`,
`write_request` with an `io::Error`, `SendStream::finish()` with a
`quinn::WriteError`, and `read_response` with an `io::Error`.  The write
outcome may depend on the request handed to the codec. -/
structure RpcEnv where
  openBi : Except ConnectionError Unit
  writeRequest : Request → Except IoError Unit
  finish : Except WriteError Unit
  readResponse : Except IoError Response

/-- The outcomes of the fallible awaited operations of `push`
(`connection.open_uni()`, `write_request`, `finish`; there is no read). -/
structure PushEnv where
  openUni : Except ConnectionError Unit
  writeRequest : Request → Except IoError Unit
  finish : Except WriteError Unit

/-- What a call left behind: the metrics state, the trace of attempted
stages, and the returned result. -/
structure RpcOutcome where
  metrics : MetricsState
  trace : List Event
  result : Except TransportError Response

/-- What a `push` call left behind. -/
structure PushOutcome where
  metrics : MetricsState
  trace : List Event
  result : Except TransportError Unit

/-- `ConnectionHandle` (connection_handle.rs lines 69-74): the immutable
peer id; the shared connection and metrics sink are threaded explicitly
through each call. -/
structure ConnectionHandle where
  peer_id : NodeId
  deriving DecidableEq, Repr

/-- `ConnectionHandle::rpc` (connection_handle.rs lines 89-140): bump the
rpc request counter, insert the handle's peer id into the request
extensions, then open a bidirectional stream, write the framed request,
finish the write side and read one framed response, mapping the failure
of each stage through the error mapper (touching, but not incrementing,
the labeled error counter) and returning it at once; on success insert
the peer id into the response extensions and return the response. -/
def ConnectionHandle.rpc (h : ConnectionHandle) (env : RpcEnv)
    (request : Request) (metrics : MetricsState) : RpcOutcome :=
  let metrics := metrics.incRequestsTotal REQUEST_TYPE_RPC
  let request := { request with extensions := request.extensions.insertNodeId h.peer_id }
  match env.openBi with
  | .error e =>
      { metrics := metrics.touchErrorsTotal REQUEST_TYPE_RPC ERROR_TYPE_OPEN
        trace := [.openEv]
        result := .error (connectionErrorToTransportError e) }
  | .ok _ =>
    match env.writeRequest request with
    | .error e =>
        { metrics := metrics.touchErrorsTotal REQUEST_TYPE_RPC ERROR_TYPE_WRITE
          trace := [.openEv, .writeEv request]
          result := .error (.Io e) }
    | .ok _ =>
      match env.finish with
      | .error e =>
          { metrics := metrics.touchErrorsTotal REQUEST_TYPE_RPC ERROR_TYPE_FINISH
            trace := [.openEv, .writeEv request, .finishEv]
            result := .error (writeErrorToTransportError e) }
      | .ok _ =>
        match env.readResponse with
        | .error e =>
            { metrics := metrics.touchErrorsTotal REQUEST_TYPE_RPC ERROR_TYPE_READ
              trace := [.openEv, .writeEv request, .finishEv, .readEv]
              result := .error (.Io e) }
        | .ok response =>
            { metrics := metrics
              trace := [.openEv, .writeEv request, .finishEv, .readEv]
              result := .ok { response with
                extensions := response.extensions.insertNodeId h.peer_id } }

/-- `ConnectionHandle::push` (connection_handle.rs lines 142-178): bump
the push request counter, insert the handle's peer id into the request
extensions, then open a unidirectional stream, write the framed request
and finish the write side, mapping each stage failure as in `rpc`; on
success return `Ok(())` with no read stage and no response. -/
def ConnectionHandle.push (h : ConnectionHandle) (env : PushEnv)
    (request : Request) (metrics : MetricsState) : PushOutcome :=
  let metrics := metrics.incRequestsTotal REQUEST_TYPE_PUSH
  let request := { request with extensions := request.extensions.insertNodeId h.peer_id }
  match env.openUni with
  | .error e =>
      { metrics := metrics.touchErrorsTotal REQUEST_TYPE_PUSH ERROR_TYPE_OPEN
        trace := [.openEv]
        result := .error (connectionErrorToTransportError e) }
  | .ok _ =>
    match env.writeRequest request with
    | .error e =>
        { metrics := metrics.touchErrorsTotal REQUEST_TYPE_PUSH ERROR_TYPE_WRITE
          trace := [.openEv, .writeEv request]
          result := .error (.Io e) }
    | .ok _ =>
      match env.finish with
      | .error e =>
          { metrics := metrics.touchErrorsTotal REQUEST_TYPE_PUSH ERROR_TYPE_FINISH
            trace := [.openEv, .writeEv request, .finishEv]
            result := .error (writeErrorToTransportError e) }
      | .ok _ =>
          { metrics := metrics
            trace := [.openEv, .writeEv request, .finishEv]
            result := .ok () }

/-! ## Branch characterizations of `rpc` and `push` -/

/-- Outcome of `rpc` when opening the bidirectional stream fails. -/
theorem rpc_eq_open_error (h : ConnectionHandle) (env : RpcEnv) (req : Request)
    (m : MetricsState) (c : ConnectionError) (hO : env.openBi = .error c) :
    h.rpc env req m =
      ⟨m.incRequestsTotal REQUEST_TYPE_RPC, [.openEv],
        .error (connectionErrorToTransportError c)⟩ := by
  simp only [ConnectionHandle.rpc, hO]
  rfl

/-- Outcome of `rpc` when open succeeds and writing the request fails. -/
theorem rpc_eq_write_error (h : ConnectionHandle) (env : RpcEnv) (req : Request)
    (m : MetricsState) (i : IoError) (hO : env.openBi = .ok ())
    (hW : env.writeRequest
        { req with extensions := req.extensions.insertNodeId h.peer_id } = .error i) :
    h.rpc env req m =
      ⟨m.incRequestsTotal REQUEST_TYPE_RPC,
        [.openEv, .writeEv { req with extensions := req.extensions.insertNodeId h.peer_id }],
        .error (.Io i)⟩ := by
  simp only [ConnectionHandle.rpc, hO, hW]
  rfl

/-- Outcome of `rpc` when open and write succeed and finishing the write
side fails. -/
theorem rpc_eq_finish_error (h : ConnectionHandle) (env : RpcEnv) (req : Request)
    (m : MetricsState) (w : WriteError) (hO : env.openBi = .ok ())
    (hW : env.writeRequest
        { req with extensions := req.extensions.insertNodeId h.peer_id } = .ok ())
    (hF : env.finish = .error w) :
    h.rpc env req m =
      ⟨m.incRequestsTotal REQUEST_TYPE_RPC,
        [.openEv, .writeEv { req with extensions := req.extensions.insertNodeId h.peer_id },
          .finishEv],
        .error (writeErrorToTransportError w)⟩ := by
  simp only [ConnectionHandle.rpc, hO, hW, hF]
  rfl

/-- Outcome of `rpc` when open, write and finish succeed and reading the
response fails. -/
theorem rpc_eq_read_error (h : ConnectionHandle) (env : RpcEnv) (req : Request)
    (m : MetricsState) (i : IoError) (hO : env.openBi = .ok ())
    (hW : env.writeRequest
        { req with extensions := req.extensions.insertNodeId h.peer_id } = .ok ())
    (hF : env.finish = .ok ()) (hR : env.readResponse = .error i) :
    h.rpc env req m =
      ⟨m.incRequestsTotal REQUEST_TYPE_RPC,
        [.openEv, .writeEv { req with extensions := req.extensions.insertNodeId h.peer_id },
          .finishEv, .readEv],
        .error (.Io i)⟩ := by
  simp only [ConnectionHandle.rpc, hO, hW, hF, hR]
  rfl

/-- Outcome of `rpc` when all four stages succeed. -/
theorem rpc_eq_ok (h : ConnectionHandle) (env : RpcEnv) (req : Request)
    (m : MetricsState) (resp : Response) (hO : env.openBi = .ok ())
    (hW : env.writeRequest
        { req with extensions := req.extensions.insertNodeId h.peer_id } = .ok ())
    (hF : env.finish = .ok ()) (hR : env.readResponse = .ok resp) :
    h.rpc env req m =
      ⟨m.incRequestsTotal REQUEST_TYPE_RPC,
        [.openEv, .writeEv { req with extensions := req.extensions.insertNodeId h.peer_id },
          .finishEv, .readEv],
        .ok { resp with extensions := resp.extensions.insertNodeId h.peer_id }⟩ := by
  simp only [ConnectionHandle.rpc, hO, hW, hF, hR]

/-- Outcome of `push` when opening the unidirectional stream fails. -/
theorem push_eq_open_error (h : ConnectionHandle) (env : PushEnv) (req : Request)
    (m : MetricsState) (c : ConnectionError) (hO : env.openUni = .error c) :
    h.push env req m =
      ⟨m.incRequestsTotal REQUEST_TYPE_PUSH, [.openEv],
        .error (connectionErrorToTransportError c)⟩ := by
  simp only [ConnectionHandle.push, hO]
  rfl

/-- Outcome of `push` when open succeeds and writing the request fails. -/
theorem push_eq_write_error (h : ConnectionHandle) (env : PushEnv) (req : Request)
    (m : MetricsState) (i : IoError) (hO : env.openUni = .ok ())
    (hW : env.writeRequest
        { req with extensions := req.extensions.insertNodeId h.peer_id } = .error i) :
    h.push env req m =
      ⟨m.incRequestsTotal REQUEST_TYPE_PUSH,
        [.openEv, .writeEv { req with extensions := req.extensions.insertNodeId h.peer_id }],
        .error (.Io i)⟩ := by
  simp only [ConnectionHandle.push, hO, hW]
  rfl

/-- Outcome of `push` when open and write succeed and finish fails. -/
theorem push_eq_finish_error (h : ConnectionHandle) (env : PushEnv) (req : Request)
    (m : MetricsState) (w : WriteError) (hO : env.openUni = .ok ())
    (hW : env.writeRequest
        { req with extensions := req.extensions.insertNodeId h.peer_id } = .ok ())
    (hF : env.finish = .error w) :
    h.push env req m =
      ⟨m.incRequestsTotal REQUEST_TYPE_PUSH,
        [.openEv, .writeEv { req with extensions := req.extensions.insertNodeId h.peer_id },
          .finishEv],
        .error (writeErrorToTransportError w)⟩ := by
  simp only [ConnectionHandle.push, hO, hW, hF]
  rfl

/-- Outcome of `push` when all three stages succeed. -/
theorem push_eq_ok (h : ConnectionHandle) (env : PushEnv) (req : Request)
    (m : MetricsState) (hO : env.openUni = .ok ())
    (hW : env.writeRequest
        { req with extensions := req.extensions.insertNodeId h.peer_id } = .ok ())
    (hF : env.finish = .ok ()) :
    h.push env req m =
      ⟨m.incRequestsTotal REQUEST_TYPE_PUSH,
        [.openEv, .writeEv { req with extensions := req.extensions.insertNodeId h.peer_id },
          .finishEv],
        .ok ()⟩ := by
  simp only [ConnectionHandle.push, hO, hW, hF]

/-- The metrics state a `rpc` call leaves behind, whatever the stage
outcomes: only the rpc request counter moved. -/
theorem rpc_metrics_eq (h : ConnectionHandle) (env : RpcEnv) (req : Request)
    (m : MetricsState) :
    (h.rpc env req m).metrics = m.incRequestsTotal REQUEST_TYPE_RPC := by
  rcases hO : env.openBi with c | u
  · rw [rpc_eq_open_error h env req m c hO]
  · rcases hW : env.writeRequest
        { req with extensions := req.extensions.insertNodeId h.peer_id } with i | u2
    · rw [rpc_eq_write_error h env req m i hO hW]
    · rcases hF : env.finish with w | u3
      · rw [rpc_eq_finish_error h env req m w hO hW hF]
      · rcases hR : env.readResponse with i | resp
        · rw [rpc_eq_read_error h env req m i hO hW hF hR]
        · rw [rpc_eq_ok h env req m resp hO hW hF hR]

/-- The metrics state a `push` call leaves behind, whatever the stage
outcomes: only the push request counter moved. -/
theorem push_metrics_eq (h : ConnectionHandle) (env : PushEnv) (req : Request)
    (m : MetricsState) :
    (h.push env req m).metrics = m.incRequestsTotal REQUEST_TYPE_PUSH := by
  rcases hO : env.openUni with c | u
  · rw [push_eq_open_error h env req m c hO]
  · rcases hW : env.writeRequest
        { req with extensions := req.extensions.insertNodeId h.peer_id } with i | u2
    · rw [push_eq_write_error h env req m i hO hW]
    · rcases hF : env.finish with w | u3
      · rw [push_eq_finish_error h env req m w hO hW hF]
      · rw [push_eq_ok h env req m hO hW hF]

end QuicTransport

namespace QuicTransport

/-- C1: the error mapper is total over both upstream failure enumerations
and follows the spec's fixed table: connection-gone causes
(`ConnectionLost`, `ConnectionClosed`, `ApplicationClosed`,
`LocallyClosed`) map to `Disconnected`; every other cause maps to `Io`
carrying one of the closed category tags; no cause is unmapped or
defaulted. -/
theorem error_mapper_total_fixed_table :
    (∀ w : WriteError,
      (writeErrorToTransportError w).isDisconnected = specGoneWrite w) ∧
    (∀ c : ConnectionError,
      (connectionErrorToTransportError c).isDisconnected = specGoneConn c) ∧
    (∀ w : WriteError, ∀ k : IoErrorKind,
      (writeErrorToTransportError w).ioKind = some k → specIoKind k = true) ∧
    (∀ c : ConnectionError, ∀ k : IoErrorKind,
      (connectionErrorToTransportError c).ioKind = some k → specIoKind k = true) := by
  refine ⟨?_, ?_, ?_, ?_⟩
  · intro w; cases w <;> rfl
  · intro c; cases c <;> rfl
  · intro w k h
    cases w <;> simp [writeErrorToTransportError, TransportError.ioKind] at h <;>
      simp [← h, specIoKind]
  · intro c k h
    cases c <;> simp [connectionErrorToTransportError, TransportError.ioKind] at h <;>
      simp [← h, specIoKind]

/-- Witness for C1 at concrete causes: `TimedOut` maps to `Io` with the
`TimedOut` tag (not connection-gone), `LocallyClosed` maps to
`Disconnected`. -/
theorem error_mapper_total_fixed_table_witness :
    (connectionErrorToTransportError ConnectionError.TimedOut).isDisconnected
        = specGoneConn ConnectionError.TimedOut ∧
    (connectionErrorToTransportError ConnectionError.LocallyClosed).isDisconnected
        = specGoneConn ConnectionError.LocallyClosed ∧
    specIoKind IoErrorKind.TimedOut = true :=
  ⟨error_mapper_total_fixed_table.2.1 ConnectionError.TimedOut,
   error_mapper_total_fixed_table.2.1 ConnectionError.LocallyClosed,
   error_mapper_total_fixed_table.2.2.2 ConnectionError.TimedOut IoErrorKind.TimedOut rfl⟩

/-! ## Concrete inputs used by witnesses -/

/-- Metrics state with every counter at zero. -/
def zeroMetrics : MetricsState := ⟨fun _ => 0, fun _ _ => 0⟩

/-- A concrete handle to peer 7. -/
def sampleHandle : ConnectionHandle := ⟨7⟩

/-- A concrete request with empty extensions. -/
def sampleRequest : Request := ⟨[1, 2, 3], ⟨none⟩⟩

/-- A concrete response body used by the all-success environment. -/
def sampleResponse : Response := ⟨[9], ⟨none⟩⟩

/-- An rpc environment whose stream open fails because the connection was
closed locally. -/
def failOpenRpcEnv : RpcEnv :=
  ⟨.error .LocallyClosed, fun _ => .ok (), .ok (), .ok sampleResponse⟩

/-- An rpc environment where all four stages succeed. -/
def okRpcEnv : RpcEnv := ⟨.ok (), fun _ => .ok (), .ok (), .ok sampleResponse⟩

/-- A push environment where all three stages succeed. -/
def okPushEnv : PushEnv := ⟨.ok (), fun _ => .ok (), .ok ()⟩

/-- C7: each of `rpc` and `push` bumps the request counter labeled with
its own call type by exactly one, and touches no other request-counter
label; this holds for every stage-outcome environment, in particular when
the very first stage (stream open) fails, since the increment happens
unconditionally at call entry. -/
theorem request_counter_incremented_once_unconditionally :
    ∀ (h : ConnectionHandle) (envR : RpcEnv) (envP : PushEnv) (req : Request)
      (m : MetricsState) (l : String),
      ((h.rpc envR req m).metrics.requests_total l
          = m.requests_total l + (if l = REQUEST_TYPE_RPC then 1 else 0)) ∧
      ((h.push envP req m).metrics.requests_total l
          = m.requests_total l + (if l = REQUEST_TYPE_PUSH then 1 else 0)) := by
  intro h envR envP req m l
  rw [rpc_metrics_eq, push_metrics_eq]
  constructor <;>
    · simp only [MetricsState.incRequestsTotal]
      split <;> simp

/-- C2 (code bug): a failing call leaves every error counter unchanged.
The source's error paths call `with_label_values` on
`connection_handle_errors_total` but never call `.inc()` on the returned
child, so the counter the spec says is incremented stays at its old
value.  Evaluated at the failing input: an rpc on a connection whose
`open_bi` fails with `LocallyClosed`, starting from all-zero counters;
the call returns the mapped `Disconnected` error yet every error counter
still reads zero. -/
theorem error_counter_never_incremented :
    ((sampleHandle.rpc failOpenRpcEnv sampleRequest zeroMetrics).result
        = .error (.Disconnected (some "Connection closed locally"))) ∧
    ∀ ty stage,
      (sampleHandle.rpc failOpenRpcEnv sampleRequest zeroMetrics).metrics.errors_total
          ty stage = 0 := by
  constructor
  · rfl
  · intro ty stage
    rfl

/-- C3: whatever request value either call hands to the framing writer
(the `writeEv` payload of its trace — the bytes-and-metadata actually
transmitted) carries the handle's peer id in its extensions: the id is
inserted before the stream is opened, hence before transmission. -/
theorem peer_id_inserted_before_transmission :
    ∀ (h : ConnectionHandle) (envR : RpcEnv) (envP : PushEnv) (req r : Request)
      (m : MetricsState),
      (Event.writeEv r ∈ (h.rpc envR req m).trace →
        r.extensions.peer_id = some h.peer_id) ∧
      (Event.writeEv r ∈ (h.push envP req m).trace →
        r.extensions.peer_id = some h.peer_id) := by
  intro h envR envP req r m
  constructor
  · intro hmem
    rcases hO : envR.openBi with c | u
    · rw [rpc_eq_open_error h envR req m c hO] at hmem
      simp at hmem
    · rcases hW : envR.writeRequest
          { req with extensions := req.extensions.insertNodeId h.peer_id } with i | u2
      · rw [rpc_eq_write_error h envR req m i hO hW] at hmem
        simp at hmem
        rw [hmem]
        simp [Extensions.insertNodeId]
      · rcases hF : envR.finish with w | u3
        · rw [rpc_eq_finish_error h envR req m w hO hW hF] at hmem
          simp at hmem
          rw [hmem]
          simp [Extensions.insertNodeId]
        · rcases hR : envR.readResponse with i | resp
          · rw [rpc_eq_read_error h envR req m i hO hW hF hR] at hmem
            simp at hmem
            rw [hmem]
            simp [Extensions.insertNodeId]
          · rw [rpc_eq_ok h envR req m resp hO hW hF hR] at hmem
            simp at hmem
            rw [hmem]
            simp [Extensions.insertNodeId]
  · intro hmem
    rcases hO : envP.openUni with c | u
    · rw [push_eq_open_error h envP req m c hO] at hmem
      simp at hmem
    · rcases hW : envP.writeRequest
          { req with extensions := req.extensions.insertNodeId h.peer_id } with i | u2
      · rw [push_eq_write_error h envP req m i hO hW] at hmem
        simp at hmem
        rw [hmem]
        simp [Extensions.insertNodeId]
      · rcases hF : envP.finish with w | u3
        · rw [push_eq_finish_error h envP req m w hO hW hF] at hmem
          simp at hmem
          rw [hmem]
          simp [Extensions.insertNodeId]
        · rw [push_eq_ok h envP req m hO hW hF] at hmem
          simp at hmem
          rw [hmem]
          simp [Extensions.insertNodeId]

/-- Witness for C3: in the all-success rpc environment the transmitted
request is the sample request with the peer id inserted, and it indeed
carries peer id 7. -/
theorem peer_id_inserted_before_transmission_witness :
    ({ sampleRequest with
        extensions := sampleRequest.extensions.insertNodeId sampleHandle.peer_id
      } : Request).extensions.peer_id = some sampleHandle.peer_id :=
  (peer_id_inserted_before_transmission sampleHandle okRpcEnv okPushEnv sampleRequest
    { sampleRequest with
      extensions := sampleRequest.extensions.insertNodeId sampleHandle.peer_id }
    zeroMetrics).1 (by decide)

/-- C4: every response a successful `rpc` hands back carries the
responding peer's identity in its metadata: the handle's peer id is
inserted into the extensions of the response read off the stream before
the response is returned. -/
theorem responder_peer_id_in_response :
    ∀ (h : ConnectionHandle) (env : RpcEnv) (req : Request) (m : MetricsState)
      (resp : Response),
      (h.rpc env req m).result = .ok resp →
      resp.extensions.peer_id = some h.peer_id := by
  intro h env req m resp hres
  rcases hO : env.openBi with c | u
  · rw [rpc_eq_open_error h env req m c hO] at hres
    simp at hres
  · rcases hW : env.writeRequest
        { req with extensions := req.extensions.insertNodeId h.peer_id } with i | u2
    · rw [rpc_eq_write_error h env req m i hO hW] at hres
      simp at hres
    · rcases hF : env.finish with w | u3
      · rw [rpc_eq_finish_error h env req m w hO hW hF] at hres
        simp at hres
      · rcases hR : env.readResponse with i | r0
        · rw [rpc_eq_read_error h env req m i hO hW hF hR] at hres
          simp at hres
        · rw [rpc_eq_ok h env req m r0 hO hW hF hR] at hres
          simp at hres
          rw [← hres]
          simp [Extensions.insertNodeId]

/-- Witness for C4: in the all-success environment the returned response
carries peer id 7. -/
theorem responder_peer_id_in_response_witness :
    ({ sampleResponse with
        extensions := sampleResponse.extensions.insertNodeId sampleHandle.peer_id
      } : Response).extensions.peer_id = some sampleHandle.peer_id :=
  responder_peer_id_in_response sampleHandle okRpcEnv sampleRequest zeroMetrics
    { sampleResponse with
      extensions := sampleResponse.extensions.insertNodeId sampleHandle.peer_id }
    rfl

/-- C5: `push` returns `Ok(())` exactly when the local open, write and
finish stages all succeed; its trace never contains a read stage, and no
response is produced — success does not depend on anything the remote
peer does after the bytes are written. -/
theorem push_ok_iff_local_open_write_finish :
    ∀ (h : ConnectionHandle) (env : PushEnv) (req : Request) (m : MetricsState),
      ((h.push env req m).result = .ok () ↔
        env.openUni = .ok () ∧
        env.writeRequest
            { req with extensions := req.extensions.insertNodeId h.peer_id } = .ok () ∧
        env.finish = .ok ()) ∧
      Event.readEv ∉ (h.push env req m).trace := by
  intro h env req m
  have main :
      ((h.push env req m).result = .ok () ↔
        env.openUni = .ok () ∧
        env.writeRequest
            { req with extensions := req.extensions.insertNodeId h.peer_id } = .ok () ∧
        env.finish = .ok ()) ∧
      Event.readEv ∉ (h.push env req m).trace := by
    rcases hO : env.openUni with c | u
    · rw [push_eq_open_error h env req m c hO]
      constructor
      · simp [hO]
      · simp
    · rcases hW : env.writeRequest
          { req with extensions := req.extensions.insertNodeId h.peer_id } with i | u2
      · rw [push_eq_write_error h env req m i hO hW]
        constructor
        · simp [hW]
        · simp
      · rcases hF : env.finish with w | u3
        · rw [push_eq_finish_error h env req m w hO hW hF]
          constructor
          · simp [hF]
          · simp
        · rw [push_eq_ok h env req m hO hW hF]
          constructor
          · simp [hO, hW, hF]
          · simp
  exact main

/-- Witness for C5: in the all-success push environment the call returns
`Ok(())`. -/
theorem push_ok_iff_local_open_write_finish_witness :
    (sampleHandle.push okPushEnv sampleRequest zeroMetrics).result = .ok () :=
  (push_ok_iff_local_open_write_finish sampleHandle okPushEnv sampleRequest
    zeroMetrics).1.mpr ⟨rfl, rfl, rfl⟩

/-- C9: no `Disconnected` produced by either mapper ever carries an
absent cause: `ConnectionLost`, `ConnectionClosed` and `ApplicationClosed`
carry the underlying cause rendered to a string, and `LocallyClosed`
carries the fixed string "Connection closed locally". -/
theorem disconnected_cause_always_present :
    (∀ w : WriteError,
      (writeErrorToTransportError w).disconnectedCausePresent = true) ∧
    (∀ c : ConnectionError,
      (connectionErrorToTransportError c).disconnectedCausePresent = true) ∧
    (∀ cause : ConnectionError,
      writeErrorToTransportError (.ConnectionLost cause)
        = .Disconnected (some cause.render)) ∧
    (∀ e : String,
      connectionErrorToTransportError (.ConnectionClosed e) = .Disconnected (some e)) ∧
    (∀ e : String,
      connectionErrorToTransportError (.ApplicationClosed e) = .Disconnected (some e)) ∧
    connectionErrorToTransportError .LocallyClosed
        = .Disconnected (some "Connection closed locally") := by
  refine ⟨?_, ?_, fun _ => rfl, fun _ => rfl, fun _ => rfl, rfl⟩
  · intro w
    cases w <;> rfl
  · intro c
    cases c <;> rfl

/-- C10: on a successful `rpc`, the peer id found in the transmitted
request's metadata and the peer id inserted into the returned response's
metadata are the same value — the handle's single immutable `peer_id`. -/
theorem request_and_response_carry_same_peer_id :
    ∀ (h : ConnectionHandle) (env : RpcEnv) (req r : Request) (m : MetricsState)
      (resp : Response),
      (h.rpc env req m).result = .ok resp →
      Event.writeEv r ∈ (h.rpc env req m).trace →
      r.extensions.peer_id = resp.extensions.peer_id ∧
      resp.extensions.peer_id = some h.peer_id := by
  intro h env req r m resp hres hmem
  rcases hO : env.openBi with c | u
  · rw [rpc_eq_open_error h env req m c hO] at hres
    simp at hres
  · rcases hW : env.writeRequest
        { req with extensions := req.extensions.insertNodeId h.peer_id } with i | u2
    · rw [rpc_eq_write_error h env req m i hO hW] at hres
      simp at hres
    · rcases hF : env.finish with w | u3
      · rw [rpc_eq_finish_error h env req m w hO hW hF] at hres
        simp at hres
      · rcases hR : env.readResponse with i | r0
        · rw [rpc_eq_read_error h env req m i hO hW hF hR] at hres
          simp at hres
        · rw [rpc_eq_ok h env req m r0 hO hW hF hR] at hres hmem
          simp at hres hmem
          rw [← hres, hmem]
          simp [Extensions.insertNodeId]

/-- Witness for C10: in the all-success environment both the transmitted
request and the returned response carry peer id 7. -/
theorem request_and_response_carry_same_peer_id_witness :
    ({ sampleRequest with
        extensions := sampleRequest.extensions.insertNodeId sampleHandle.peer_id
      } : Request).extensions.peer_id
        = ({ sampleResponse with
              extensions := sampleResponse.extensions.insertNodeId sampleHandle.peer_id
            } : Response).extensions.peer_id ∧
    ({ sampleResponse with
        extensions := sampleResponse.extensions.insertNodeId sampleHandle.peer_id
      } : Response).extensions.peer_id = some sampleHandle.peer_id :=
  request_and_response_carry_same_peer_id sampleHandle okRpcEnv sampleRequest
    { sampleRequest with
      extensions := sampleRequest.extensions.insertNodeId sampleHandle.peer_id }
    zeroMetrics
    { sampleResponse with
      extensions := sampleResponse.extensions.insertNodeId sampleHandle.peer_id }
    rfl (by decide)

/-- The fixed stage order of an rpc call. -/
def rpcStageOrder : List Stage := [.openS, .writeS, .finishS, .readS]

/-- The fixed stage order of a push call. -/
def pushStageOrder : List Stage := [.openS, .writeS, .finishS]

/-- C6: both calls attempt their stages in the fixed order open, write,
finish, (rpc only) read — each call's trace is a take-n of that order and
repeats no stage (no internal retry) — and the first failing stage has
its cause converted by the error mapper and returned at once, with no
later stage in the trace.  (The embedded calls are total functions into a
result value, so ordinary transport failures have no panic path.) -/
theorem stages_in_order_no_retry_fail_fast :
    ∀ (h : ConnectionHandle) (envR : RpcEnv) (envP : PushEnv) (req : Request)
      (m : MetricsState),
      (∃ n, (h.rpc envR req m).trace.map Event.stageOf = rpcStageOrder.take n ∧
        ((h.rpc envR req m).trace.map Event.stageOf).Nodup) ∧
      (∃ n, (h.push envP req m).trace.map Event.stageOf = pushStageOrder.take n ∧
        ((h.push envP req m).trace.map Event.stageOf).Nodup) ∧
      (∀ c, envR.openBi = .error c →
        (h.rpc envR req m).result = .error (connectionErrorToTransportError c) ∧
        (h.rpc envR req m).trace.map Event.stageOf = [.openS]) ∧
      (∀ i, envR.openBi = .ok () →
        envR.writeRequest
            { req with extensions := req.extensions.insertNodeId h.peer_id } = .error i →
        (h.rpc envR req m).result = .error (.Io i) ∧
        (h.rpc envR req m).trace.map Event.stageOf = [.openS, .writeS]) ∧
      (∀ w, envR.openBi = .ok () →
        envR.writeRequest
            { req with extensions := req.extensions.insertNodeId h.peer_id } = .ok () →
        envR.finish = .error w →
        (h.rpc envR req m).result = .error (writeErrorToTransportError w) ∧
        (h.rpc envR req m).trace.map Event.stageOf = [.openS, .writeS, .finishS]) ∧
      (∀ i, envR.openBi = .ok () →
        envR.writeRequest
            { req with extensions := req.extensions.insertNodeId h.peer_id } = .ok () →
        envR.finish = .ok () → envR.readResponse = .error i →
        (h.rpc envR req m).result = .error (.Io i) ∧
        (h.rpc envR req m).trace.map Event.stageOf = rpcStageOrder) ∧
      (∀ c, envP.openUni = .error c →
        (h.push envP req m).result = .error (connectionErrorToTransportError c) ∧
        (h.push envP req m).trace.map Event.stageOf = [.openS]) ∧
      (∀ i, envP.openUni = .ok () →
        envP.writeRequest
            { req with extensions := req.extensions.insertNodeId h.peer_id } = .error i →
        (h.push envP req m).result = .error (.Io i) ∧
        (h.push envP req m).trace.map Event.stageOf = [.openS, .writeS]) ∧
      (∀ w, envP.openUni = .ok () →
        envP.writeRequest
            { req with extensions := req.extensions.insertNodeId h.peer_id } = .ok () →
        envP.finish = .error w →
        (h.push envP req m).result = .error (writeErrorToTransportError w) ∧
        (h.push envP req m).trace.map Event.stageOf = pushStageOrder) := by
  intro h envR envP req m
  refine ⟨?_, ?_, ?_, ?_, ?_, ?_, ?_, ?_, ?_⟩
  · rcases hO : envR.openBi with c | u
    · rw [rpc_eq_open_error h envR req m c hO]
      exact ⟨1, rfl, by simp [Event.stageOf, List.nodup_cons]⟩
    · rcases hW : envR.writeRequest
          { req with extensions := req.extensions.insertNodeId h.peer_id } with i | u2
      · rw [rpc_eq_write_error h envR req m i hO hW]
        exact ⟨2, rfl, by simp [Event.stageOf, List.nodup_cons]⟩
      · rcases hF : envR.finish with w | u3
        · rw [rpc_eq_finish_error h envR req m w hO hW hF]
          exact ⟨3, rfl, by simp [Event.stageOf, List.nodup_cons]⟩
        · rcases hR : envR.readResponse with i | resp
          · rw [rpc_eq_read_error h envR req m i hO hW hF hR]
            exact ⟨4, rfl, by simp [Event.stageOf, List.nodup_cons]⟩
          · rw [rpc_eq_ok h envR req m resp hO hW hF hR]
            exact ⟨4, rfl, by simp [Event.stageOf, List.nodup_cons]⟩
  · rcases hO : envP.openUni with c | u
    · rw [push_eq_open_error h envP req m c hO]
      exact ⟨1, rfl, by simp [Event.stageOf, List.nodup_cons]⟩
    · rcases hW : envP.writeRequest
          { req with extensions := req.extensions.insertNodeId h.peer_id } with i | u2
      · rw [push_eq_write_error h envP req m i hO hW]
        exact ⟨2, rfl, by simp [Event.stageOf, List.nodup_cons]⟩
      · rcases hF : envP.finish with w | u3
        · rw [push_eq_finish_error h envP req m w hO hW hF]
          exact ⟨3, rfl, by simp [Event.stageOf, List.nodup_cons]⟩
        · rw [push_eq_ok h envP req m hO hW hF]
          exact ⟨3, rfl, by simp [Event.stageOf, List.nodup_cons]⟩
  · intro c hO
    rw [rpc_eq_open_error h envR req m c hO]
    exact ⟨rfl, rfl⟩
  · intro i hO hW
    rw [rpc_eq_write_error h envR req m i hO hW]
    exact ⟨rfl, rfl⟩
  · intro w hO hW hF
    rw [rpc_eq_finish_error h envR req m w hO hW hF]
    exact ⟨rfl, rfl⟩
  · intro i hO hW hF hR
    rw [rpc_eq_read_error h envR req m i hO hW hF hR]
    exact ⟨rfl, rfl⟩
  · intro c hO
    rw [push_eq_open_error h envP req m c hO]
    exact ⟨rfl, rfl⟩
  · intro i hO hW
    rw [push_eq_write_error h envP req m i hO hW]
    exact ⟨rfl, rfl⟩
  · intro w hO hW hF
    rw [push_eq_finish_error h envP req m w hO hW hF]
    exact ⟨rfl, rfl⟩

/-- Witness for C6: when the open stage fails with `LocallyClosed`, the
call returns the mapped error immediately and only the open stage was
attempted. -/
theorem stages_in_order_no_retry_fail_fast_witness :
    (sampleHandle.rpc failOpenRpcEnv sampleRequest zeroMetrics).result
        = .error (connectionErrorToTransportError ConnectionError.LocallyClosed) ∧
    (sampleHandle.rpc failOpenRpcEnv sampleRequest zeroMetrics).trace.map Event.stageOf
        = [Stage.openS] :=
  (stages_in_order_no_retry_fail_fast sampleHandle failOpenRpcEnv okPushEnv
    sampleRequest zeroMetrics).2.2.1 ConnectionError.LocallyClosed rfl

/-! ## The framing codec reader -/

/-- The length a 4-byte big-endian length field declares. -/
def declaredLen (b0 b1 b2 b3 : Nat) : Nat :=
  ((b0 * 256 + b1) * 256 + b2) * 256 + b3

/-- `tokio_util::codec::length_delimited::Builder::new()` default
`max_frame_length`: 8 MiB. -/
def DEFAULT_MAX_FRAME_LENGTH : Nat := 8 * 1024 * 1024

/-- Modelled from the spec: the framing reader built by
`Builder::new().new_read(recv_stream)` and driven by `read_response`
(the codec lives in the external tokio-util crate and `read_response` in
this crate's utils module; neither body is part of the sampled source).
Read the fixed-width big-endian length prefix; if the declared length
exceeds the configured maximum frame size, fail as an io error without
touching the payload bytes; otherwise read exactly that many payload
bytes off the stream, failing as an io error when the stream ends
first. -/
def readFrame (maxFrameLength : Nat) (stream : List Nat) :
    Except IoError (List Nat × List Nat) :=
  match stream with
  | b0 :: b1 :: b2 :: b3 :: rest =>
      if maxFrameLength < declaredLen b0 b1 b2 b3 then
        .error ⟨.InvalidData, some "frame size too big"⟩
      else if rest.length < declaredLen b0 b1 b2 b3 then
        .error ⟨.UnexpectedEof, some "stream ended before full frame"⟩
      else
        .ok (rest.take (declaredLen b0 b1 b2 b3), rest.drop (declaredLen b0 b1 b2 b3))
  | _ => .error ⟨.UnexpectedEof, some "stream ended before length prefix"⟩

/-- C8: a frame whose declared length exceeds the maximum frame size
fails as an io error whose outcome is independent of the bytes after the
prefix (nothing of the declared payload is buffered); a frame within the
limit yields exactly the declared number of payload bytes, and fails as
an io error when the stream ends before that many bytes arrive.  (In
`rpc` any read-stage io error is returned as `TransportError::Io`.) -/
theorem frame_size_bound_exact_read :
    ∀ (maxLen b0 b1 b2 b3 : Nat) (rest rest2 : List Nat),
      (maxLen < declaredLen b0 b1 b2 b3 →
        readFrame maxLen (b0 :: b1 :: b2 :: b3 :: rest)
            = .error ⟨.InvalidData, some "frame size too big"⟩ ∧
        readFrame maxLen (b0 :: b1 :: b2 :: b3 :: rest)
            = readFrame maxLen (b0 :: b1 :: b2 :: b3 :: rest2)) ∧
      (declaredLen b0 b1 b2 b3 ≤ maxLen → declaredLen b0 b1 b2 b3 ≤ rest.length →
        readFrame maxLen (b0 :: b1 :: b2 :: b3 :: rest)
            = .ok (rest.take (declaredLen b0 b1 b2 b3),
                rest.drop (declaredLen b0 b1 b2 b3)) ∧
        (rest.take (declaredLen b0 b1 b2 b3)).length = declaredLen b0 b1 b2 b3) ∧
      (declaredLen b0 b1 b2 b3 ≤ maxLen → rest.length < declaredLen b0 b1 b2 b3 →
        readFrame maxLen (b0 :: b1 :: b2 :: b3 :: rest)
            = .error ⟨.UnexpectedEof, some "stream ended before full frame"⟩) := by
  intro maxLen b0 b1 b2 b3 rest rest2
  refine ⟨?_, ?_, ?_⟩
  · intro hgt
    exact ⟨by simp [readFrame, hgt], by simp [readFrame, hgt]⟩
  · intro hle hlen
    refine ⟨by simp [readFrame, Nat.not_lt.mpr hle, Nat.not_lt.mpr hlen], ?_⟩
    simp [List.length_take]
    omega
  · intro hle hshort
    simp [readFrame, Nat.not_lt.mpr hle, hshort]

/-- Witness for C8: with a maximum frame size of 2 and a prefix declaring
3 bytes, the reader fails without looking past the prefix — the outcome
is the same whatever payload bytes follow. -/
theorem frame_size_bound_exact_read_witness :
    readFrame 2 [0, 0, 0, 3, 5] = .error ⟨.InvalidData, some "frame size too big"⟩ ∧
    readFrame 2 [0, 0, 0, 3, 5] = readFrame 2 [0, 0, 0, 3, 6, 7] :=
  (frame_size_bound_exact_read 2 0 0 0 3 [5] [6, 7]).1 (by decide)

end QuicTransport
